import Mathlib

/-!
# Verification of the task-progress synchronization store

Shallow embedding of `src/frontend/src/stores/research.ts` (the Pinia
research store): the canonical snapshot (`progress` ref and `currentTask`
ref), the poll channel (`startPolling` / `stopPolling` with its interval
timer), the push channel (`connectWebSocket` with its per-socket `onopen` /
`onmessage` / `onclose` handlers and the `wsRetryCount` reconnect
supervisor), and the composition operations `startStatusSync`,
`stopStatusSync`, `updateFromTask`, `resetProgress`, `cleanup`.

Machine integers of the source (`progress`, `estimatedTime`, counters) are
modelled as `Int` / `Nat`.  The asynchronous structure of the source is
kept: the polling interval callback is `async` — it first awaits the
status fetch, and the continuation (`updateFromTask` plus the terminal
check) runs as a separate, later callback that `clearInterval` does not
cancel; each WebSocket's `onclose` handler nulls the shared `wsConnection`
ref unconditionally, whichever socket the ref currently holds.  Events are
therefore: an interval tick (launches a fetch), a fetch resolution (runs
the awaited continuation whether or not the interval still exists),
per-socket message / open / close callbacks, and a reconnect timeout
firing.  Each event runs its handler body atomically, matching the
single-threaded callback queue of the host runtime.
-/

/-- Task status strings of the source: `'pending' | 'running' | 'completed' | 'failed'`. -/
inductive TaskStatus where
  | pending
  | running
  | completed
  | failed
deriving DecidableEq, Repr

/-- `task.status === 'completed' || task.status === 'failed'`. -/
def TaskStatus.isTerminal : TaskStatus → Bool
  | .completed => true
  | .failed => true
  | _ => false

/-- The `ResearchTask` record as used by the store (`@/types`): fields read by
`updateFromTask` and written by the ws `onmessage` handler.  Optional fields
(`current_agent`, `current_task`, `estimated_time`) are `Option`s, matching
`task.current_agent || ''` style defaulting at the use sites. -/
structure ResearchTask where
  id : String
  status : TaskStatus
  progress : Int
  current_agent : Option String
  current_task : Option String
  estimated_time : Option Int
deriving DecidableEq, Repr

/-- The `ResearchProgress` record held in the `progress` ref. -/
structure ResearchProgress where
  status : TaskStatus
  progress : Int
  currentAgent : String
  currentTask : String
  estimatedTime : Int
deriving DecidableEq, Repr

/-- The initial / reset value of the `progress` ref (lines 9-15 and
`resetProgress`). -/
def initialProgress : ResearchProgress :=
  { status := .pending, progress := 0, currentAgent := "", currentTask := "",
    estimatedTime := 0 }

/-- A frame delivered on the push channel, i.e. one `onmessage` event.
`malformed` stands for a payload on which `JSON.parse` (or the field reads)
throws, handled by the `catch` of the handler; `heartbeat` is a parsed frame
with `type === 'heartbeat'`; `statusFrame` is a parsed status frame with the
field set read by the handler. -/
inductive WsFrame where
  | heartbeat
  | malformed
  | statusFrame (status : TaskStatus) (progress : Int)
      (currentAgent currentTask : Option String) (estimatedTime : Option Int)
deriving DecidableEq, Repr

/-- `MAX_WS_RETRIES` (line 25). -/
def MAX_WS_RETRIES : Nat := 3

/-- The fixed reconnect delay of `setTimeout(..., 2000)` in `ws.onclose`,
in milliseconds. -/
def WS_RETRY_DELAY_MS : Nat := 2000

/-- The polling interval of `setInterval(..., 2000)`, in milliseconds. -/
def POLL_INTERVAL_MS : Nat := 2000

/-- The mutable state of the store: the refs `currentTask`, `progress`,
`wsConnection`, and the module-level variables `pollingTimer` and
`wsRetryCount`.  Sockets and interval timers are identified by ids drawn
from `nextId`; `liveConns` / `liveTimers` are the ids created and not yet
closed / cleared (the host's live resources).  `pendingReconnects` is the
queue of reconnect `setTimeout` callbacks not yet fired, each recording its
delay; `inFlightPolls` counts poll fetches launched whose awaited
continuations have not yet run (`clearInterval` does not cancel them);
`connectCount` counts the sockets `connectWebSocket` created. -/
structure StoreState where
  currentTask : Option ResearchTask
  progress : ResearchProgress
  wsConnection : Option Nat
  pollingTimer : Option Nat
  wsRetryCount : Nat
  liveConns : List Nat
  liveTimers : List Nat
  pendingReconnects : List Nat
  inFlightPolls : Nat
  connectCount : Nat
  nextId : Nat
deriving DecidableEq, Repr

/-- `isResearching` (lines 28-30): `currentTask.value?.status === 'running'
|| currentTask.value?.status === 'pending'`. -/
def isResearching (s : StoreState) : Bool :=
  match s.currentTask with
  | some t => t.status = .running || t.status = .pending
  | none => false

/-- `resetProgress` (lines 243-251). -/
def resetProgress (s : StoreState) : StoreState :=
  { s with progress := initialProgress }

/-- `updateFromTask` (lines 111-120): overwrites `currentTask` with the
fetched task and rebuilds the whole `progress` record from it. -/
def updateFromTask (s : StoreState) (task : ResearchTask) : StoreState :=
  { s with
    currentTask := some task,
    progress :=
      { status := task.status,
        progress := task.progress,
        currentAgent := task.current_agent.getD "",
        currentTask := task.current_task.getD "",
        estimatedTime := (task.estimated_time.getD 0) } }

/-- `stopPolling` (lines 103-108): if a timer is installed, clear it and
null the variable.  Clearing the interval does not touch `inFlightPolls`:
a fetch already awaited keeps its continuation. -/
def stopPolling (s : StoreState) : StoreState :=
  match s.pollingTimer with
  | some t => { s with pollingTimer := none, liveTimers := s.liveTimers.erase t }
  | none => s

/-- `stopStatusSync` (lines 76-82): if a socket is held, close it and null
the ref; then stop polling. -/
def stopStatusSync (s : StoreState) : StoreState :=
  let s1 :=
    match s.wsConnection with
    | some c => { s with wsConnection := none, liveConns := s.liveConns.erase c }
    | none => s
  stopPolling s1

/-- `startPolling` (lines 85-101): stop any existing timer, then install a
fresh interval. -/
def startPolling (s : StoreState) : StoreState :=
  let s1 := stopPolling s
  { s1 with
    pollingTimer := some s1.nextId,
    liveTimers := s1.nextId :: s1.liveTimers,
    nextId := s1.nextId + 1 }

/-- `connectWebSocket` (lines 122-195), successful creation path: close the
old socket if one is held (its own `onclose` will still fire later as a
separate event), create a fresh socket and store it in the `wsConnection`
ref. -/
def connectWebSocket (s : StoreState) : StoreState :=
  let s1 :=
    match s.wsConnection with
    | some c => { s with liveConns := s.liveConns.erase c }
    | none => s
  { s1 with
    wsConnection := some s1.nextId,
    liveConns := s1.nextId :: s1.liveConns,
    connectCount := s1.connectCount + 1,
    nextId := s1.nextId + 1 }

/-- `startStatusSync` (lines 66-73): reset the retry counter, connect the
socket, start polling. -/
def startStatusSync (s : StoreState) : StoreState :=
  startPolling (connectWebSocket { s with wsRetryCount := 0 })

/-- `cleanup` (lines 253-257).  Nothing cancels an in-flight poll fetch:
`inFlightPolls` is untouched. -/
def cleanup (s : StoreState) : StoreState :=
  resetProgress { (stopStatusSync s) with currentTask := none }

/-- Body of a socket's `onmessage` handler (lines 136-169): parse failure
and heartbeats leave the state untouched; a status frame rebuilds the
`progress` record, patches `currentTask` if present, and on a terminal
status calls `stopStatusSync`.  The closure reads and writes the store
directly — it does not check which socket `wsConnection` currently
holds. -/
def handleWsMessage (s : StoreState) (f : WsFrame) : StoreState :=
  match f with
  | .malformed => s
  | .heartbeat => s
  | .statusFrame st pr ca ct et =>
    let s1 :=
      { s with
        progress :=
          { status := st,
            progress := pr,
            currentAgent := ca.getD "",
            currentTask := ct.getD "",
            estimatedTime := et.getD 0 },
        currentTask := s.currentTask.map fun t =>
          { t with status := st, progress := pr,
                   current_agent := ca, current_task := ct } }
    if st.isTerminal then stopStatusSync s1 else s1

/-- The part of the interval callback (lines 88-99) after `await
getTaskStatus` resolves: `none` models a rejected fetch (caught and
logged, no state change); a fetched task is applied via `updateFromTask`,
then a terminal status triggers `stopStatusSync`.  The source runs this
continuation whenever the promise resolves — `clearInterval` does not
cancel it, so it is not guarded by the interval (or any channel) still
existing. -/
def pollContinuation (s : StoreState) (fetched : Option ResearchTask) : StoreState :=
  match fetched with
  | none => s
  | some task =>
    let s1 := updateFromTask s task
    if task.status.isTerminal then stopStatusSync s1 else s1

/-- Body of a socket's `onclose` handler (lines 175-189): it nulls the
shared `wsConnection` ref unconditionally — even when the ref meanwhile
holds a different, still-open socket — and, while retries remain and the
task still reads as researching, bumps the counter and schedules a
reconnect `setTimeout` with the fixed delay. -/
def handleWsClose (s : StoreState) : StoreState :=
  let s1 := { s with wsConnection := none }
  if s1.wsRetryCount < MAX_WS_RETRIES && isResearching s1 then
    { s1 with
      wsRetryCount := s1.wsRetryCount + 1,
      pendingReconnects := s1.pendingReconnects ++ [WS_RETRY_DELAY_MS] }
  else s1

/-- Body of a socket's `onopen` handler (lines 131-134): reset the retry
counter, unconditionally. -/
def handleWsOpen (s : StoreState) : StoreState :=
  { s with wsRetryCount := 0 }

/-- Body of the reconnect `setTimeout` callback (lines 183-187): when it
fires, if a task is still held and researching, reconnect the socket. -/
def handleReconnectFire (s : StoreState) : StoreState :=
  match s.pendingReconnects with
  | [] => s
  | _ :: rest =>
    let s1 := { s with pendingReconnects := rest }
    if s1.currentTask.isSome && isResearching s1 then connectWebSocket s1 else s1

/-- One asynchronous callback delivery: the polling interval fires
(launching a fetch), an in-flight fetch resolves (`none` on fetch
failure), socket `i` delivers a message / finishes opening / closes, or a
scheduled reconnect timeout fires. -/
inductive Event where
  | pollTick
  | pollResponse (fetched : Option ResearchTask)
  | wsMessage (i : Nat) (f : WsFrame)
  | wsOpen (i : Nat)
  | wsClose (i : Nat)
  | reconnectFire
deriving DecidableEq, Repr

/-- Process one callback.  A tick fires only while its interval is
installed and launches a fetch; a fetch resolution runs the awaited
continuation whenever a fetch is in flight, regardless of the channels'
state; message and open callbacks are delivered by open sockets; a close
callback can arrive for any socket that was ever created — also one
replaced long ago — removing it from the open set (if still there) and
running the `onclose` handler body. -/
def step (s : StoreState) (e : Event) : StoreState :=
  match e with
  | .pollTick =>
    if s.pollingTimer.isSome then
      { s with inFlightPolls := s.inFlightPolls + 1 }
    else s
  | .pollResponse fetched =>
    if 0 < s.inFlightPolls then
      pollContinuation { s with inFlightPolls := s.inFlightPolls - 1 } fetched
    else s
  | .wsMessage i f => if i ∈ s.liveConns then handleWsMessage s f else s
  | .wsOpen i => if i ∈ s.liveConns then handleWsOpen s else s
  | .wsClose i =>
    if i < s.nextId then
      handleWsClose { s with liveConns := s.liveConns.erase i }
    else s
  | .reconnectFire => handleReconnectFire s

/-! ## Projection facts about teardown -/

theorem stopPolling_pollingTimer (s : StoreState) :
    (stopPolling s).pollingTimer = none := by
  unfold stopPolling; split <;> simp_all

theorem stopPolling_wsConnection (s : StoreState) :
    (stopPolling s).wsConnection = s.wsConnection := by
  unfold stopPolling; split <;> rfl

theorem stopPolling_currentTask (s : StoreState) :
    (stopPolling s).currentTask = s.currentTask := by
  unfold stopPolling; split <;> rfl

theorem stopPolling_progress (s : StoreState) :
    (stopPolling s).progress = s.progress := by
  unfold stopPolling; split <;> rfl

theorem stopStatusSync_pollingTimer (s : StoreState) :
    (stopStatusSync s).pollingTimer = none := by
  unfold stopStatusSync
  exact stopPolling_pollingTimer _

theorem stopStatusSync_wsConnection (s : StoreState) :
    (stopStatusSync s).wsConnection = none := by
  unfold stopStatusSync
  rw [stopPolling_wsConnection]
  split <;> simp_all

theorem stopStatusSync_currentTask (s : StoreState) :
    (stopStatusSync s).currentTask = s.currentTask := by
  unfold stopStatusSync
  rw [stopPolling_currentTask]
  split <;> rfl

theorem stopStatusSync_progress (s : StoreState) :
    (stopStatusSync s).progress = s.progress := by
  unfold stopStatusSync
  rw [stopPolling_progress]
  split <;> rfl

theorem stopStatusSync_noop (v : StoreState) (h1 : v.wsConnection = none)
    (h2 : v.pollingTimer = none) : stopStatusSync v = v := by
  simp [stopStatusSync, stopPolling, h1, h2]

/-! ## Concrete states used as inputs -/

/-- The mid-run task view held in `cexSnapshot`. -/
def midRunTask : ResearchTask :=
  { id := "t1", status := .running, progress := 50,
    current_agent := some "analyst", current_task := some "financials",
    estimated_time := some 30 }

/-- A snapshot mid-run: progress 50, status running, socket 0 held and
open, interval 1 installed and live, no fetch in flight. -/
def cexSnapshot : StoreState :=
  { currentTask := some midRunTask,
    progress :=
      { status := .running, progress := 50, currentAgent := "analyst",
        currentTask := "financials", estimatedTime := 30 },
    wsConnection := some 0, pollingTimer := some 1, wsRetryCount := 0,
    liveConns := [0], liveTimers := [1], pendingReconnects := [],
    inFlightPolls := 0, connectCount := 1, nextId := 2 }

/-- The mid-run snapshot with one poll fetch in flight. -/
def inFlightSnapshot : StoreState :=
  { cexSnapshot with inFlightPolls := 1 }

/-- A stale poll result for the same task: progress 30, behind the held 50. -/
def staleTask : ResearchTask :=
  { id := "t1", status := .running, progress := 30,
    current_agent := some "analyst", current_task := some "financials",
    estimated_time := some 40 }

/-- A poll result reporting the backward status pending after running. -/
def backwardTask : ResearchTask :=
  { id := "t1", status := .pending, progress := 55,
    current_agent := some "analyst", current_task := some "financials",
    estimated_time := some 30 }

/-- The completed task view held in `completedSnapshot`. -/
def completedTask : ResearchTask :=
  { id := "t1", status := .completed, progress := 100,
    current_agent := some "report", current_task := some "done",
    estimated_time := some 0 }

/-- A terminal completed snapshot with both channels already torn down. -/
def completedSnapshot : StoreState :=
  { currentTask := some completedTask,
    progress :=
      { status := .completed, progress := 100, currentAgent := "report",
        currentTask := "done", estimatedTime := 0 },
    wsConnection := none, pollingTimer := none, wsRetryCount := 0,
    liveConns := [], liveTimers := [], pendingReconnects := [],
    inFlightPolls := 0, connectCount := 1, nextId := 2 }

/-- The completed snapshot with one poll fetch still in flight (launched
before the terminal frame arrived). -/
def completedInFlight : StoreState :=
  { completedSnapshot with inFlightPolls := 1 }

/-- An in-flight poll result still reporting running after completion. -/
def lateRunningTask : ResearchTask :=
  { id := "t1", status := .running, progress := 90,
    current_agent := some "analyst", current_task := some "summary",
    estimated_time := some 5 }

/-! ## C1: progress monotonicity -/

/-- C1 (counterexample): `updateFromTask` holds no monotonicity guard: with
the snapshot's progress at 50, applying a frame carrying progress 30 writes
30, a strict decrease. -/
theorem progress_monotonicity_cex :
    cexSnapshot.progress.progress = 50 ∧ staleTask.progress = 30 ∧
    (updateFromTask cexSnapshot staleTask).progress.progress = 30 ∧
    (updateFromTask cexSnapshot staleTask).progress.progress
      < cexSnapshot.progress.progress := by
  decide

/-- C1 (amended): both apply paths overwrite the snapshot's `progress`
field with the incoming frame's value unconditionally, with no comparison
against the held value. -/
theorem progress_applied_unconditionally (s : StoreState) (t : ResearchTask)
    (st : TaskStatus) (pr : Int) (ca ct : Option String) (et : Option Int) :
    (updateFromTask s t).progress.progress = t.progress ∧
    (handleWsMessage s (.statusFrame st pr ca ct et)).progress.progress = pr := by
  refine ⟨rfl, ?_⟩
  unfold handleWsMessage
  by_cases h : st.isTerminal <;> simp [h, stopStatusSync_progress]

/-! ## C2: forward-only status -/

/-- C2 (counterexample): a frame reporting pending after the snapshot holds
running is not discarded: it is applied and moves the status backward. -/
theorem status_forward_only_cex :
    cexSnapshot.progress.status = .running ∧ backwardTask.status = .pending ∧
    (updateFromTask cexSnapshot backwardTask).progress.status = .pending ∧
    updateFromTask cexSnapshot backwardTask ≠ cexSnapshot := by
  decide

/-- C2 (amended): both apply paths overwrite the snapshot's `status` with
the incoming frame's status unconditionally; there is no forward-only
check and no discard of backward frames. -/
theorem status_applied_unconditionally (s : StoreState) (t : ResearchTask)
    (st : TaskStatus) (pr : Int) (ca ct : Option String) (et : Option Int) :
    (updateFromTask s t).progress.status = t.status ∧
    (updateFromTask s t).currentTask = some t ∧
    (handleWsMessage s (.statusFrame st pr ca ct et)).progress.status = st := by
  refine ⟨rfl, rfl, ?_⟩
  unfold handleWsMessage
  by_cases h : st.isTerminal <;> simp [h, stopStatusSync_progress]

/-! ## C3: terminal immutability -/

/-- C3 (counterexample): with the snapshot terminal at completed, applying
an in-flight running frame through `updateFromTask` does not yield the
snapshot back: it mutates it, moving the status back to running. -/
theorem terminal_immutability_cex :
    completedSnapshot.progress.status = .completed ∧
    updateFromTask completedSnapshot lateRunningTask ≠ completedSnapshot ∧
    (updateFromTask completedSnapshot lateRunningTask).progress.status
      = .running ∧
    (updateFromTask completedSnapshot lateRunningTask).progress.progress = 90 := by
  decide

/-- C3 (amended): frame application has no terminal guard.  A frame
applied to a snapshot whose status is already completed or failed
overwrites it field-by-field exactly as for a live snapshot, and a poll
response resolving after the channels are gone still does so. -/
theorem terminal_snapshot_overwritten (s : StoreState) (t : ResearchTask)
    (hterm : s.progress.status.isTerminal = true)
    (hf : 0 < s.inFlightPolls) :
    (updateFromTask s t).progress
      = { status := t.status, progress := t.progress,
          currentAgent := t.current_agent.getD "",
          currentTask := t.current_task.getD "",
          estimatedTime := t.estimated_time.getD 0 } ∧
    (updateFromTask s t).currentTask = some t ∧
    (step s (.pollResponse (some t))).progress.status = t.status ∧
    (step s (.pollResponse (some t))).progress.progress = t.progress := by
  refine ⟨rfl, rfl, ?_, ?_⟩ <;>
    by_cases ht : t.status.isTerminal <;>
      simp [step, hf, pollContinuation, ht, stopStatusSync_progress,
        updateFromTask]

/-- Witness: the C3 theorem applied at the completed snapshot with one
fetch in flight and the late running poll result. -/
theorem terminal_snapshot_overwritten_witness :
    completedInFlight.progress.status.isTerminal = true ∧
    0 < completedInFlight.inFlightPolls ∧
    ((updateFromTask completedInFlight lateRunningTask).progress
       = { status := lateRunningTask.status,
           progress := lateRunningTask.progress,
           currentAgent := lateRunningTask.current_agent.getD "",
           currentTask := lateRunningTask.current_task.getD "",
           estimatedTime := lateRunningTask.estimated_time.getD 0 } ∧
     (updateFromTask completedInFlight lateRunningTask).currentTask
       = some lateRunningTask ∧
     (step completedInFlight (.pollResponse (some lateRunningTask))).progress.status
       = lateRunningTask.status ∧
     (step completedInFlight (.pollResponse (some lateRunningTask))).progress.progress
       = lateRunningTask.progress) :=
  ⟨by decide, by decide,
   terminal_snapshot_overwritten completedInFlight lateRunningTask
     (by decide) (by decide)⟩

/-! ## C4: cancellation -/

/-- C4: the code violates the cancellation claim.  `cleanup` closes the
socket, clears the interval and nulls `currentTask`, but a poll fetch in
flight at cleanup time is not cancelled: when it resolves, the awaited
continuation still runs `updateFromTask`, repopulating `currentTask` and
overwriting the reset snapshot — an observable mutation of the cancelled
handle. -/
theorem cleanup_inflight_poll_mutates :
    (cleanup inFlightSnapshot).wsConnection = none ∧
    (cleanup inFlightSnapshot).pollingTimer = none ∧
    (cleanup inFlightSnapshot).currentTask = none ∧
    0 < (cleanup inFlightSnapshot).inFlightPolls ∧
    (step (cleanup inFlightSnapshot)
        (.pollResponse (some lateRunningTask))).currentTask
      = some lateRunningTask ∧
    (step (cleanup inFlightSnapshot)
        (.pollResponse (some lateRunningTask))).progress.status = .running ∧
    (step (cleanup inFlightSnapshot)
        (.pollResponse (some lateRunningTask))).progress.progress = 90 ∧
    step (cleanup inFlightSnapshot) (.pollResponse (some lateRunningTask))
      ≠ cleanup inFlightSnapshot := by
  decide

/-! ## C5: terminal teardown, exactly once -/

/-- C5: a frame applied with terminal status tears down both channels
(socket closed and nulled, interval cleared and nulled) whether it arrived
as a poll fetch resolution or as a push message, and teardown is
idempotent: a second `stopStatusSync` finds both handles null and changes
nothing, so repeated terminal signals execute the effective teardown
exactly once. -/
theorem terminal_teardown_once (s u : StoreState) (i : Nat)
    (t : ResearchTask) (st : TaskStatus) (pr : Int) (ca ct : Option String)
    (et : Option Int)
    (hf : 0 < s.inFlightPolls) (hi : i ∈ s.liveConns)
    (ht : t.status.isTerminal = true) (hst : st.isTerminal = true) :
    (step s (.pollResponse (some t))).wsConnection = none ∧
    (step s (.pollResponse (some t))).pollingTimer = none ∧
    (step s (.wsMessage i (.statusFrame st pr ca ct et))).wsConnection = none ∧
    (step s (.wsMessage i (.statusFrame st pr ca ct et))).pollingTimer = none ∧
    stopStatusSync (stopStatusSync u) = stopStatusSync u := by
  refine ⟨?_, ?_, ?_, ?_,
    stopStatusSync_noop _ (stopStatusSync_wsConnection u)
      (stopStatusSync_pollingTimer u)⟩ <;>
    simp [step, hf, hi, pollContinuation, handleWsMessage, ht, hst,
      stopStatusSync_wsConnection, stopStatusSync_pollingTimer]

/-- Witness: the C5 theorem applied at the mid-run state with a fetch in
flight and socket 0 open, a completed poll result and a failed push
frame. -/
theorem terminal_teardown_once_witness :
    0 < inFlightSnapshot.inFlightPolls ∧
    0 ∈ inFlightSnapshot.liveConns ∧
    completedTask.status.isTerminal = true ∧
    TaskStatus.failed.isTerminal = true ∧
    ((step inFlightSnapshot (.pollResponse (some completedTask))).wsConnection
       = none ∧
     (step inFlightSnapshot (.pollResponse (some completedTask))).pollingTimer
       = none ∧
     (step inFlightSnapshot
        (.wsMessage 0 (.statusFrame .failed 100 none none none))).wsConnection
       = none ∧
     (step inFlightSnapshot
        (.wsMessage 0 (.statusFrame .failed 100 none none none))).pollingTimer
       = none ∧
     stopStatusSync (stopStatusSync inFlightSnapshot)
       = stopStatusSync inFlightSnapshot) :=
  ⟨by decide, by decide, by decide, by decide,
   terminal_teardown_once inFlightSnapshot inFlightSnapshot 0 completedTask
     .failed 100 none none none (by decide) (by decide) (by decide)
     (by decide)⟩

/-! ## C6: bounded reconnect -/

/-- Four consecutive closures while non-terminal: the initially held
socket `a` closes, and each reconnect-created socket (ids `n`, `n + 1`,
`n + 2`) closes in turn, each non-final closure followed by its scheduled
reconnect timeout firing. -/
def fourClosures (a n : Nat) : List Event :=
  [.wsClose a, .reconnectFire, .wsClose n, .reconnectFire, .wsClose (n + 1),
   .reconnectFire, .wsClose (n + 2)]

/-- C6: from a connected non-terminal state with a fresh retry counter, the
four-closure trace schedules a reconnect with the fixed 2 s delay after
each of the first three closures, performs exactly 3 socket creations, and
the 4th closure schedules nothing: the counter sits at the maximum, the
socket ref is null, and the polling timer is untouched (the task stays
tracked by polling alone).  A successful open resets the retry counter
to 0. -/
theorem bounded_reconnect (s u : StoreState) (a i : Nat)
    (hw : s.wsConnection = some a) (ha : a < s.nextId)
    (hr : s.wsRetryCount = 0) (hpend : s.pendingReconnects = [])
    (hres : isResearching s = true) (hu : i ∈ u.liveConns) :
    (List.foldl step s ((fourClosures a s.nextId).take 1)).pendingReconnects
      = [WS_RETRY_DELAY_MS] ∧
    (List.foldl step s ((fourClosures a s.nextId).take 3)).pendingReconnects
      = [WS_RETRY_DELAY_MS] ∧
    (List.foldl step s ((fourClosures a s.nextId).take 5)).pendingReconnects
      = [WS_RETRY_DELAY_MS] ∧
    (List.foldl step s (fourClosures a s.nextId)).connectCount
      = s.connectCount + 3 ∧
    (List.foldl step s (fourClosures a s.nextId)).pendingReconnects = [] ∧
    (List.foldl step s (fourClosures a s.nextId)).wsRetryCount
      = MAX_WS_RETRIES ∧
    (List.foldl step s (fourClosures a s.nextId)).wsConnection = none ∧
    (List.foldl step s (fourClosures a s.nextId)).pollingTimer
      = s.pollingTimer ∧
    (step u (.wsOpen i)).wsRetryCount = 0 := by
  obtain ⟨ct, pg, ws, pt, rc, lc, lt, pend, ip, cc, ni⟩ := s
  replace hw : ws = some a := hw
  replace ha : a < ni := ha
  replace hr : rc = 0 := hr
  replace hpend : pend = [] := hpend
  subst hw
  subst hr
  subst hpend
  cases ct with
  | none => simp [isResearching] at hres
  | some tk =>
    simp only [isResearching] at hres
    simp [fourClosures, step, handleWsClose, handleReconnectFire,
      connectWebSocket, isResearching, MAX_WS_RETRIES, WS_RETRY_DELAY_MS,
      handleWsOpen, hres, hu, ha]

/-- Witness: the C6 theorem applied at the mid-run state (socket 0 held,
next id 2) and socket 0 open. -/
theorem bounded_reconnect_witness :
    cexSnapshot.wsConnection = some 0 ∧
    0 < cexSnapshot.nextId ∧
    cexSnapshot.wsRetryCount = 0 ∧
    cexSnapshot.pendingReconnects = [] ∧
    isResearching cexSnapshot = true ∧
    0 ∈ cexSnapshot.liveConns ∧
    ((List.foldl step cexSnapshot
        ((fourClosures 0 cexSnapshot.nextId).take 1)).pendingReconnects
       = [WS_RETRY_DELAY_MS] ∧
     (List.foldl step cexSnapshot
        ((fourClosures 0 cexSnapshot.nextId).take 3)).pendingReconnects
       = [WS_RETRY_DELAY_MS] ∧
     (List.foldl step cexSnapshot
        ((fourClosures 0 cexSnapshot.nextId).take 5)).pendingReconnects
       = [WS_RETRY_DELAY_MS] ∧
     (List.foldl step cexSnapshot (fourClosures 0 cexSnapshot.nextId)).connectCount
       = cexSnapshot.connectCount + 3 ∧
     (List.foldl step cexSnapshot
        (fourClosures 0 cexSnapshot.nextId)).pendingReconnects = [] ∧
     (List.foldl step cexSnapshot (fourClosures 0 cexSnapshot.nextId)).wsRetryCount
       = MAX_WS_RETRIES ∧
     (List.foldl step cexSnapshot (fourClosures 0 cexSnapshot.nextId)).wsConnection
       = none ∧
     (List.foldl step cexSnapshot (fourClosures 0 cexSnapshot.nextId)).pollingTimer
       = cexSnapshot.pollingTimer ∧
     (step cexSnapshot (.wsOpen 0)).wsRetryCount = 0) :=
  ⟨rfl, by decide, rfl, rfl, by decide, by decide,
   bounded_reconnect cexSnapshot cexSnapshot 0 0 rfl (by decide) rfl rfl
     (by decide) (by decide)⟩

/-! ## C7: heartbeats -/

/-- C7: a push-channel frame whose type discriminator is heartbeat leaves
the whole store state unchanged, both as the raw handler body and as a
delivered event on any socket. -/
theorem heartbeat_frame_noop (s : StoreState) (i : Nat) :
    handleWsMessage s .heartbeat = s ∧ step s (.wsMessage i .heartbeat) = s := by
  refine ⟨rfl, ?_⟩
  simp [step, handleWsMessage]

/-! ## C8: locally recovered errors -/

/-- C8: locally recovered errors never mutate the snapshot: a poll tick
only launches a fetch, a fetch that fails resolves its await with no state
change beyond consuming the in-flight marker (snapshot, timers and socket
all untouched, so the next scheduled tick proceeds), and a push frame that
fails to parse leaves the whole state unchanged — no partially applied
frame. -/
theorem local_error_noop (s : StoreState) (i : Nat) :
    (step s .pollTick).progress = s.progress ∧
    (step s .pollTick).currentTask = s.currentTask ∧
    (step s .pollTick).pollingTimer = s.pollingTimer ∧
    (step s (.pollResponse none)).progress = s.progress ∧
    (step s (.pollResponse none)).currentTask = s.currentTask ∧
    (step s (.pollResponse none)).pollingTimer = s.pollingTimer ∧
    (step s (.pollResponse none)).wsConnection = s.wsConnection ∧
    (step s (.pollResponse none)).liveTimers = s.liveTimers ∧
    (step s (.pollResponse none)).liveConns = s.liveConns ∧
    (step s (.pollResponse none)).wsRetryCount = s.wsRetryCount ∧
    (step s (.pollResponse none)).pendingReconnects = s.pendingReconnects ∧
    (step s (.pollResponse none)).connectCount = s.connectCount ∧
    step s (.wsMessage i .malformed) = s := by
  by_cases hp : s.pollingTimer.isSome <;>
    by_cases hf : 0 < s.inFlightPolls <;>
      simp [step, hp, hf, pollContinuation, handleWsMessage]

/-! ## C9: duplicate delivery -/

/-- C9: frame application is idempotent under duplicate delivery: the raw
poll apply (`updateFromTask`), the awaited poll continuation, and a
duplicated push message event are all unchanged by a second application;
a duplicated poll resolution (two in-flight fetches returning the same
frame) leaves the snapshot where the first left it. -/
theorem duplicate_frame_idempotent (s : StoreState) (t : ResearchTask)
    (i : Nat) (f : WsFrame) :
    updateFromTask (updateFromTask s t) t = updateFromTask s t ∧
    pollContinuation (pollContinuation s (some t)) (some t)
      = pollContinuation s (some t) ∧
    step (step s (.wsMessage i f)) (.wsMessage i f)
      = step s (.wsMessage i f) ∧
    ((step (step s (.pollResponse (some t))) (.pollResponse (some t))).progress
       = (step s (.pollResponse (some t))).progress ∧
     (step (step s (.pollResponse (some t))) (.pollResponse (some t))).currentTask
       = (step s (.pollResponse (some t))).currentTask) := by
  obtain ⟨tsk, pg, ws, pt, rc, lc, lt, pend, ip, cc, ni⟩ := s
  refine ⟨rfl, ?_, ?_, ?_⟩
  · by_cases ht : t.status.isTerminal <;>
      cases ws <;> cases pt <;>
        simp [pollContinuation, updateFromTask, stopStatusSync, stopPolling, ht]
  · cases f with
    | heartbeat => simp [step, handleWsMessage]
    | malformed => simp [step, handleWsMessage]
    | statusFrame st pr ca ct et =>
      by_cases hi : i ∈ lc
      · by_cases hst : st.isTerminal <;>
          cases ws <;> cases pt <;> cases tsk <;>
            simp [step, handleWsMessage, hst, hi, stopStatusSync, stopPolling]
      · simp [step, hi]
  · cases ip with
    | zero => simp [step]
    | succ n =>
      cases n with
      | zero =>
        by_cases ht : t.status.isTerminal <;>
          cases ws <;> cases pt <;>
            simp [step, pollContinuation, updateFromTask, stopStatusSync,
              stopPolling, ht]
      | succ m =>
        by_cases ht : t.status.isTerminal <;>
          cases ws <;> cases pt <;>
            simp [step, pollContinuation, updateFromTask, stopStatusSync,
              stopPolling, ht]

/-! ## C10: one transport per channel kind -/

/-- C10 (counterexample): two push sockets open at once.  From the mid-run
state (socket 0 held and open), `startStatusSync` — the research view
remounting while a task is tracked — closes socket 0 and opens socket 2;
socket 0's late `onclose` then nulls the shared ref even though it holds
the still-open socket 2, and schedules a reconnect; the reconnect opens
socket 4 while socket 2 is still open, so two sockets are live and both
still deliver state-mutating messages. -/
theorem single_push_transport_cex :
    cexSnapshot.liveConns.length = 1 ∧
    (startStatusSync cexSnapshot).wsConnection = some 2 ∧
    (startStatusSync cexSnapshot).liveConns = [2] ∧
    (step (startStatusSync cexSnapshot) (.wsClose 0)).wsConnection = none ∧
    2 ∈ (step (startStatusSync cexSnapshot) (.wsClose 0)).liveConns ∧
    (step (step (startStatusSync cexSnapshot) (.wsClose 0))
        .reconnectFire).liveConns.length = 2 ∧
    (step (step (startStatusSync cexSnapshot) (.wsClose 0))
        .reconnectFire).liveConns = [4, 2] := by
  decide

/-- The live interval timers are exactly the held one. -/
def TimerWf (s : StoreState) : Prop :=
  s.liveTimers = s.pollingTimer.toList

theorem timerWf_stopPolling (s : StoreState) (h : TimerWf s) :
    TimerWf (stopPolling s) := by
  unfold TimerWf stopPolling at *
  cases hpt : s.pollingTimer <;> simp_all

theorem timerWf_stopStatusSync (s : StoreState) (h : TimerWf s) :
    TimerWf (stopStatusSync s) := by
  unfold stopStatusSync
  apply timerWf_stopPolling
  unfold TimerWf at *
  cases hws : s.wsConnection <;> simp_all

theorem timerWf_connectWebSocket (s : StoreState) (h : TimerWf s) :
    TimerWf (connectWebSocket s) := by
  unfold TimerWf connectWebSocket at *
  cases hws : s.wsConnection <;> simp_all

theorem timerWf_startPolling (s : StoreState) (h : TimerWf s) :
    TimerWf (startPolling s) := by
  have g := timerWf_stopPolling s h
  unfold TimerWf startPolling at *
  rw [stopPolling_pollingTimer] at g
  simp_all

theorem timerWf_startStatusSync (s : StoreState) (h : TimerWf s) :
    TimerWf (startStatusSync s) := by
  unfold startStatusSync
  exact timerWf_startPolling _ (timerWf_connectWebSocket _ h)

theorem timerWf_cleanup (s : StoreState) (h : TimerWf s) :
    TimerWf (cleanup s) :=
  timerWf_stopStatusSync s h

theorem timerWf_pollContinuation (s : StoreState)
    (fetched : Option ResearchTask) (h : TimerWf s) :
    TimerWf (pollContinuation s fetched) := by
  cases fetched with
  | none => exact h
  | some task =>
    by_cases ht : task.status.isTerminal
    · simp only [pollContinuation, ht, if_true]
      exact timerWf_stopStatusSync _ h
    · simp only [pollContinuation, ht, Bool.false_eq_true, if_false]
      exact h

theorem timerWf_handleWsMessage (s : StoreState) (f : WsFrame)
    (h : TimerWf s) : TimerWf (handleWsMessage s f) := by
  cases f with
  | heartbeat => exact h
  | malformed => exact h
  | statusFrame st pr ca ct et =>
    by_cases hst : st.isTerminal
    · simp only [handleWsMessage, hst, if_true]
      exact timerWf_stopStatusSync _ h
    · simp only [handleWsMessage, hst, Bool.false_eq_true, if_false]
      exact h

theorem timerWf_step (s : StoreState) (e : Event) (h : TimerWf s) :
    TimerWf (step s e) := by
  cases e with
  | pollTick =>
    simp only [step]
    split
    · exact h
    · exact h
  | pollResponse fetched =>
    simp only [step]
    split
    · exact timerWf_pollContinuation _ fetched h
    · exact h
  | wsMessage i f =>
    simp only [step]
    split
    · exact timerWf_handleWsMessage _ f h
    · exact h
  | wsOpen i =>
    simp only [step]
    split
    · exact h
    · exact h
  | wsClose i =>
    simp only [step, handleWsClose]
    split
    · split
      · exact h
      · exact h
    · exact h
  | reconnectFire =>
    simp only [step, handleReconnectFire]
    split
    · exact h
    · split
      · exact timerWf_connectWebSocket _ h
      · exact h

/-- C10 (amended): the poll side is single-transport: `startPolling` stops
the old interval before installing a new one, so — under the timer
accounting invariant, preserved by every store operation and every
delivered event — at most one polling interval is ever live; and at most
one socket is ever held in the single `wsConnection` ref.  The push side
is not single-transport: a replaced socket's late `onclose` nulls the
shared ref while the replacement is still open, and the reconnect path
then opens a second concurrently live socket (see the counterexample). -/
theorem single_poll_transport (s : StoreState) (e : Event) (h : TimerWf s) :
    TimerWf (step s e) ∧ TimerWf (startStatusSync s) ∧
    TimerWf (startPolling s) ∧ TimerWf (connectWebSocket s) ∧
    TimerWf (stopStatusSync s) ∧ TimerWf (cleanup s) ∧
    s.liveTimers.length ≤ 1 := by
  refine ⟨timerWf_step s e h, timerWf_startStatusSync s h,
    timerWf_startPolling s h, timerWf_connectWebSocket s h,
    timerWf_stopStatusSync s h, timerWf_cleanup s h, ?_⟩
  rw [h]
  cases s.pollingTimer <;> simp

/-- Witness: the C10 theorem applied at the mid-run state and a stale
close event. -/
theorem single_poll_transport_witness :
    TimerWf cexSnapshot ∧
    (TimerWf (step cexSnapshot (.wsClose 0)) ∧
     TimerWf (startStatusSync cexSnapshot) ∧
     TimerWf (startPolling cexSnapshot) ∧
     TimerWf (connectWebSocket cexSnapshot) ∧
     TimerWf (stopStatusSync cexSnapshot) ∧
     TimerWf (cleanup cexSnapshot) ∧
     cexSnapshot.liveTimers.length ≤ 1) :=
  ⟨rfl, single_poll_transport cexSnapshot (.wsClose 0) rfl⟩
